import Mathlib

/-!
Shallow embedding of the `context_ext_strawdog` repository (src/src/main.rs).

The program is a small in-memory heterogeneous value registry: a `Context`
holding a `HashMap<String, Box<dyn Any>>`, with operations `push`, `read` and
`write_with`, plus a serde-based extension trait `JSContextExt` giving
`read_json` / `update_json` to serializable types.

Modelling decisions:
- `Box<dyn Any>` is embedded as the tagged union `DynValue` over the two
  concrete types the program stores (`Stuff`, `NotSerializableStuff`);
  runtime type identity is the tag, `downcast` validates it.
- The `HashMap` is embedded as an association list with first-match lookup;
  `get_mut`-based in-place mutation is embedded as `updateEntry`, which
  replaces the value at the (unique) matching key.
- Methods taking `&mut self` and returning `Result` are embedded as functions
  returning `Except String Unit × Context`: the returned context is the state
  of `self` after the call (unchanged when the method returns early with an
  error).
- `serde_json::Value` is embedded as the `Json` inductive; numbers are `Nat`
  since the only numeric field serialized is a `usize`.
- A Rust `unwrap` panic is embedded as `Except.error`: a function that can
  panic returns `Except String α`, `Except.ok` being the normal return.
-/

/-- Rust struct `Stuff { foo: usize, bar: String }` (derives Serialize,
Deserialize). -/
structure Stuff where
  foo : Nat
  bar : String
deriving DecidableEq, Repr

/-- Rust struct `NotSerializableStuff { baz: usize }` (no serde derives). -/
structure NotSerializableStuff where
  baz : Nat
deriving DecidableEq, Repr

/-- Runtime type identity of the concrete types stored in the registry:
the `TypeId` carried by `Box<dyn Any>`. -/
inductive RTy where
  | stuffTy
  | notSerializableTy
deriving DecidableEq, Repr

/-- The Rust static type denoted by a type identity. -/
def RTy.interp : RTy → Type
  | .stuffTy => Stuff
  | .notSerializableTy => NotSerializableStuff

/-- Embeds `std::any::type_name::<T>()` for the stored types. -/
def RTy.typeName : RTy → String
  | .stuffTy => "context_ext_strawdog::Stuff"
  | .notSerializableTy => "context_ext_strawdog::NotSerializableStuff"

/-- A `Box<dyn Any>` value: one of the concrete types, tagged with its
runtime type identity. -/
inductive DynValue where
  | stuffVal (s : Stuff)
  | notSerializableVal (n : NotSerializableStuff)
deriving DecidableEq, Repr

/-- Box a typed value into a `dyn Any` value (`Box::new`). -/
def DynValue.ofTy : (t : RTy) → t.interp → DynValue
  | .stuffTy, s => .stuffVal s
  | .notSerializableTy, n => .notSerializableVal n

/-- Embeds `downcast_ref::<T>` / `downcast_mut::<T>`: succeeds exactly when the
runtime type identity matches the requested static type. -/
def DynValue.downcast : (t : RTy) → DynValue → Option t.interp
  | .stuffTy, .stuffVal s => some s
  | .stuffTy, .notSerializableVal _ => none
  | .notSerializableTy, .notSerializableVal n => some n
  | .notSerializableTy, .stuffVal _ => none

/-- Embeds `HashMap::get`: first-match lookup in the association list. -/
def lookupEntry (key : String) : List (String × DynValue) → Option DynValue
  | [] => none
  | (k, v) :: rest => if k = key then some v else lookupEntry key rest

/-- Embeds `HashMap::get_mut` followed by writing through the reference: replace the
value stored at `key` (the list is untouched when `key` is absent). -/
def updateEntry (key : String) (newVal : DynValue) :
    List (String × DynValue) → List (String × DynValue)
  | [] => []
  | (k, v) :: rest =>
    if k = key then (k, newVal) :: rest else (k, v) :: updateEntry key newVal rest

/-- Rust struct `Context { everything: HashMap<String, Box<dyn Any>> }`. -/
structure Context where
  everything : List (String × DynValue)
deriving DecidableEq, Repr

/-- Embeds `Context::default()`: empty registry. -/
def Context.default : Context := ⟨[]⟩

/-- Embeds `Context::push`: insert `value` under `key`, failing (with `self`
unchanged) when the key is already present. The pair is (returned `Result`,
state of `self` after the call). -/
def Context.push (ctx : Context) (key : String) (value : DynValue) :
    Except String Unit × Context :=
  if (lookupEntry key ctx.everything).isSome then
    (.error "this exists already!, use get or with instead!", ctx)
  else
    (.ok (), ⟨(key, value) :: ctx.everything⟩)

/-- Embeds `Context::read::<T>`: `self.everything.get(key).map(|t| t.downcast_ref()).flatten()`.
Takes `&self`, so it cannot change the registry. -/
def Context.read (ctx : Context) (t : RTy) (key : String) : Option t.interp :=
  (lookupEntry key ctx.everything).bind (DynValue.downcast t)

/-- Embeds `Context::write_with::<T>`: locate the entry, fail with a not-found
message when absent, fail with a type-mismatch message (naming the key and
`type_name::<T>()`) when the downcast fails, otherwise run the callback on a
mutable view of the value. The callback is embedded as the total function
from the value before the call to the value after it. The pair is (returned
`Result`, state of `self` after the call). -/
def Context.write_with (ctx : Context) (t : RTy) (key : String)
    (callback : t.interp → t.interp) : Except String Unit × Context :=
  match lookupEntry key ctx.everything with
  | none => (.error ("there is no contents with key " ++ key), ctx)
  | some v =>
    match v.downcast t with
    | none =>
        (.error ("value with key " ++ key ++ " is not of expected type "
          ++ t.typeName), ctx)
    | some x =>
        (.ok (), ⟨updateEntry key (DynValue.ofTy t (callback x)) ctx.everything⟩)

/-- The `main` routine's read-only block: `ctx.read(key).map(|x| g(x))`,
building a value locally from the borrowed view. `read` takes `&self`, so
the registry after the block is the registry before it. The pair is (the
locally built value, state of the registry after the block). -/
def Context.readAndBuild (ctx : Context) (t : RTy) (key : String)
    (g : t.interp → t.interp) : Option t.interp × Context :=
  ((ctx.read t key).map g, ctx)

/-- Embeds `serde_json::Value`, as a tree of primitives, sequences and maps. -/
inductive Json where
  | null
  | bool (b : Bool)
  | num (n : Nat)
  | str (s : String)
  | arr (elems : List Json)
  | obj (fields : List (String × Json))

/-- Field lookup in a JSON object (serde object maps have unique keys). -/
def jsonLookup (key : String) : List (String × Json) → Option Json
  | [] => none
  | (k, v) :: rest => if k = key then some v else jsonLookup key rest

/-- The JSON object `serde_json::to_value` produces for a `Stuff` value:
fields in declaration order, `usize` as a number, `String` as a string. -/
def Stuff.toJson (s : Stuff) : Json :=
  .obj [("foo", .num s.foo), ("bar", .str s.bar)]

/-- Embeds `serde_json::to_value::<Stuff>`: serializing a `usize` field and a
`String` field cannot fail, so the result is always `ok`. The `error` case of
the codomain is the (unreachable for this type) serialization failure that
`read_json` / `update_json` `unwrap` on. -/
def Stuff.toValue (s : Stuff) : Except String Json :=
  .ok s.toJson

/-- Embeds `serde_json::from_value::<Stuff>`: requires a JSON object whose `foo`
field is a number and whose `bar` field is a string; unknown fields are
ignored (serde default); anything else is a deserialization error. -/
def Stuff.fromValue : Json → Except String Stuff
  | .obj fields =>
    match jsonLookup "foo" fields with
    | some (.num n) =>
      match jsonLookup "bar" fields with
      | some (.str b) => .ok ⟨n, b⟩
      | some _ => .error "invalid type for field bar"
      | none => .error "missing field bar"
    | some _ => .error "invalid type for field foo"
    | none => .error "missing field foo"
  | _ => .error "invalid type: expected struct Stuff"

/-- Embeds `JSContextExt::read_json` for `Stuff`: `serde_json::to_value(&self).unwrap()`.
`none` is the `unwrap` panic on a serialization failure. -/
def Stuff.read_json (s : Stuff) : Option Json :=
  s.toValue.toOption

/-- Embeds `JSContextExt::update_json` for `Stuff`: serialize (unwrap), apply the
callback to the JSON value, deserialize back (unwrap), and overwrite `self`
with the result. `Except.ok` carries the new value of `self`; `Except.error`
is an `unwrap` panic, in which case `self` was not overwritten. -/
def Stuff.update_json (s : Stuff) (callback : Json → Json) :
    Except String Stuff :=
  match s.toValue with
  | .error e => .error e
  | .ok serialized =>
    match Stuff.fromValue (callback serialized) with
    | .error e => .error e
    | .ok deserialized => .ok deserialized

/-- The JSON transform from `main`: deserialize the value into a `Stuff`
(the `unwrap` there cannot fire on the values `update_json` feeds it, which
the theorems using this transform establish separately; the identity fallback
embeds that unreachable branch), set `foo` to 1, serialize back. -/
def setFooTo1 (value : Json) : Json :=
  match Stuff.fromValue value with
  | .ok st => Stuff.toJson { st with foo := 1 }
  | .error _ => value

/-- Run an `update_json` call as the body of a `write_with` callback, as
`main` does: on success the stored value becomes the updated one; the
fallback branch embeds the (unreachable in the scenarios proved here) panic
path, in which `self` keeps its old value. -/
def runUpdateJson (callback : Json → Json) (s : Stuff) : Stuff :=
  match s.update_json callback with
  | .ok r => r
  | .error _ => s

/-- A concrete registry holding one `Stuff` entry, used to instantiate the
universally quantified theorems below. -/
def ctxOne : Context :=
  ⟨[("stuff", DynValue.stuffVal ⟨42, "hello"⟩)]⟩

/-- State of the registry in `main` after
`ctx.push("stuff".to_string(), Box::new(Stuff { foo: 42, bar: "hello" }))`. -/
def scenarioCtx1 : Context :=
  (Context.default.push "stuff" (DynValue.ofTy .stuffTy ⟨42, "hello"⟩)).2

/-- State of the registry after the `write_with` call that sets `bar` to
"persisted". -/
def scenarioCtx2 : Context :=
  (scenarioCtx1.write_with .stuffTy "stuff" (fun s => { s with bar := "persisted" })).2

/-- State of the registry after the `write_with` call whose callback runs
`update_json` with the transform setting `foo` to 1. -/
def scenarioCtx3 : Context :=
  (scenarioCtx2.write_with .stuffTy "stuff" (runUpdateJson setFooTo1)).2

/-! ## Helper lemmas about the association-list embedding of the map -/

/-- Updating the entry at a present key makes lookup return the new value. -/
theorem lookup_updateEntry_self (key : String) (w : DynValue)
    (l : List (String × DynValue)) (h : (lookupEntry key l).isSome) :
    lookupEntry key (updateEntry key w l) = some w := by
  induction l with
  | nil => simp [lookupEntry] at h
  | cons p rest ih =>
    obtain ⟨k, v⟩ := p
    by_cases hk : k = key
    · simp [lookupEntry, updateEntry, hk]
    · simp only [lookupEntry, updateEntry, if_neg hk] at h ⊢
      exact ih h

/-- Updating the entry at one key does not change lookup at any other key. -/
theorem lookup_updateEntry_ne (key k' : String) (w : DynValue)
    (l : List (String × DynValue)) (h : k' ≠ key) :
    lookupEntry k' (updateEntry key w l) = lookupEntry k' l := by
  induction l with
  | nil => rfl
  | cons p rest ih =>
    obtain ⟨k, v⟩ := p
    by_cases hk : k = key
    · subst hk
      have hkk : ¬(k = k') := fun he => h (he ▸ rfl)
      simp [lookupEntry, updateEntry, hkk]
    · simp only [updateEntry, if_neg hk, lookupEntry]
      by_cases hk' : k = k'
      · simp [hk']
      · simp [hk', ih]

/-- Downcasting a freshly boxed value at its own type succeeds. -/
theorem downcast_ofTy (t : RTy) (x : t.interp) :
    DynValue.downcast t (DynValue.ofTy t x) = some x := by
  cases t <;> rfl

/-! ## Claim theorems -/

/-- Claim C1: when key `k` holds a value of type `T`, a successful
`write_with::<T>(k, f)` persists the mutation — the next `read::<T>(k)`
returns `f x` where `x` was the stored value — while a read-only block that
builds a value locally from the borrowed view leaves the registry unchanged,
so a subsequent read still returns the original stored value. -/
theorem write_then_read_persists (ctx : Context) (t : RTy) (k : String)
    (f g : t.interp → t.interp) (x : t.interp)
    (h : ctx.read t k = some x) :
    (ctx.write_with t k f).1 = .ok () ∧
    ((ctx.write_with t k f).2).read t k = some (f x) ∧
    (ctx.readAndBuild t k g).2 = ctx ∧
    ((ctx.readAndBuild t k g).2).read t k = some x := by
  have h' := h
  simp only [Context.read] at h'
  obtain ⟨v, hv, hd⟩ := Option.bind_eq_some.mp h'
  refine ⟨?_, ?_, rfl, h⟩
  · simp [Context.write_with, hv, hd]
  · simp only [Context.write_with, hv, hd, Context.read]
    rw [lookup_updateEntry_self _ _ _ (by rw [hv]; rfl)]
    simp [downcast_ofTy]

/-- Witness for C1 at a concrete registry: key "stuff" holds
`Stuff { foo := 42, bar := "hello" }`; after `write_with` doubling `foo`,
`read` returns `Stuff { foo := 84, bar := "hello" }`. -/
theorem write_then_read_persists_witness :
    ((ctxOne.write_with .stuffTy "stuff"
        (fun s => { s with foo := s.foo * 2 })).2).read .stuffTy "stuff"
      = some ⟨84, "hello"⟩ :=
  (write_then_read_persists ctxOne .stuffTy "stuff"
    (fun s => { s with foo := s.foo * 2 }) id ⟨42, "hello"⟩ rfl).2.1

/-- Claim C2: pushing onto an already-present key fails with the
duplicate-key error and leaves the registry byte-for-byte unchanged (in
particular any typed read is unaffected); pushing onto an absent key
succeeds, and the registry then maps that key to the pushed value. -/
theorem push_duplicate_and_fresh (ctx : Context) (k : String) (v : DynValue)
    (t : RTy) :
    (∀ w, lookupEntry k ctx.everything = some w →
      (ctx.push k v).1 = .error "this exists already!, use get or with instead!" ∧
      (ctx.push k v).2 = ctx ∧
      ((ctx.push k v).2).read t k = ctx.read t k) ∧
    (lookupEntry k ctx.everything = none →
      (ctx.push k v).1 = .ok () ∧
      lookupEntry k ((ctx.push k v).2).everything = some v) := by
  constructor
  · intro w hw
    simp [Context.push, hw]
  · intro hn
    simp [Context.push, hn, lookupEntry]

/-- Witness for C2: a duplicate push on `ctxOne` leaves it unchanged, and a
fresh push on the empty registry stores the value. -/
theorem push_duplicate_and_fresh_witness :
    (ctxOne.push "stuff" (DynValue.stuffVal ⟨7, "x"⟩)).2 = ctxOne ∧
    lookupEntry "stuff"
        ((Context.default.push "stuff" (DynValue.stuffVal ⟨7, "x"⟩)).2).everything
      = some (DynValue.stuffVal ⟨7, "x"⟩) :=
  ⟨((push_duplicate_and_fresh ctxOne "stuff" (DynValue.stuffVal ⟨7, "x"⟩)
        .stuffTy).1 (DynValue.stuffVal ⟨42, "hello"⟩) rfl).2.1,
   ((push_duplicate_and_fresh Context.default "stuff" (DynValue.stuffVal ⟨7, "x"⟩)
        .stuffTy).2 rfl).2⟩

/-- Claim C3: `write_with::<T>(k, f)` fails with the not-found error when `k`
is absent and with the type-mismatch error when the stored value's runtime
type is not `T`; the mismatch message contains both the key and the expected
type's name. -/
theorem write_with_error_cases (ctx : Context) (t : RTy) (k : String)
    (f : t.interp → t.interp) :
    (lookupEntry k ctx.everything = none →
      (ctx.write_with t k f).1 = .error ("there is no contents with key " ++ k)) ∧
    (∀ v, lookupEntry k ctx.everything = some v → v.downcast t = none →
      (ctx.write_with t k f).1 =
        .error ("value with key " ++ k ++ " is not of expected type "
          ++ t.typeName)) ∧
    (∃ pre mid post,
      ("value with key " ++ k ++ " is not of expected type " ++ t.typeName)
        = pre ++ k ++ mid ++ t.typeName ++ post) := by
  refine ⟨?_, ?_, "value with key ", " is not of expected type ", "", by simp⟩
  · intro hn
    simp [Context.write_with, hn]
  · intro v hv hd
    simp [Context.write_with, hv, hd]

/-- Witness for C3: on `ctxOne`, `write_with` at a missing key reports
not-found, and `write_with` at "stuff" with the wrong expected type reports
the mismatch naming the key and the type. -/
theorem write_with_error_cases_witness :
    (ctxOne.write_with .stuffTy "absent" id).1
      = .error ("there is no contents with key " ++ "absent") ∧
    (ctxOne.write_with .notSerializableTy "stuff" id).1
      = .error ("value with key " ++ "stuff" ++ " is not of expected type "
          ++ RTy.typeName .notSerializableTy) :=
  ⟨(write_with_error_cases ctxOne .stuffTy "absent" id).1 rfl,
   (write_with_error_cases ctxOne .notSerializableTy "stuff" id).2.1
     (DynValue.stuffVal ⟨42, "hello"⟩) rfl rfl⟩

/-- Claim C4: `read::<T>(k)` returns `none` both when `k` is absent and when
the stored value's runtime type is not `T` (the two cases are observationally
identical through `read`), and returns the stored value when `k` holds a
value of type `T`. -/
theorem read_cases (ctx : Context) (t : RTy) (k : String) :
    (lookupEntry k ctx.everything = none → ctx.read t k = none) ∧
    (∀ v, lookupEntry k ctx.everything = some v → v.downcast t = none →
      ctx.read t k = none) ∧
    (∀ x, lookupEntry k ctx.everything = some (DynValue.ofTy t x) →
      ctx.read t k = some x) := by
  refine ⟨?_, ?_, ?_⟩
  · intro hn
    simp [Context.read, hn]
  · intro v hv hd
    simp [Context.read, hv, hd]
  · intro x hx
    simp [Context.read, hx, downcast_ofTy]

/-- Witness for C4 on `ctxOne`: a missing key reads as `none`, the wrong
expected type on "stuff" reads as `none`, and the right type reads the
stored value. -/
theorem read_cases_witness :
    ctxOne.read .stuffTy "absent" = none ∧
    ctxOne.read .notSerializableTy "stuff" = none ∧
    ctxOne.read .stuffTy "stuff" = some ⟨42, "hello"⟩ :=
  ⟨(read_cases ctxOne .stuffTy "absent").1 rfl,
   (read_cases ctxOne .notSerializableTy "stuff").2.1
     (DynValue.stuffVal ⟨42, "hello"⟩) rfl rfl,
   (read_cases ctxOne .stuffTy "stuff").2.2 ⟨42, "hello"⟩ rfl⟩

/-- Claim C5: the end-to-end scenario. From the empty registry, pushing
"stuff" with `{foo: 42, bar: "hello"}` succeeds; `write_with` setting `bar`
to "persisted" succeeds and a read then returns `{foo: 42, bar: "persisted"}`;
the `update_json` transform setting `foo` to 1 succeeds (no unwrap panics)
and a read then returns `{foo: 1, bar: "persisted"}`. -/
theorem main_scenario :
    (Context.default.push "stuff" (DynValue.ofTy .stuffTy ⟨42, "hello"⟩)).1 = .ok () ∧
    (scenarioCtx1.write_with .stuffTy "stuff"
        (fun s => { s with bar := "persisted" })).1 = .ok () ∧
    scenarioCtx2.read .stuffTy "stuff" = some ⟨42, "persisted"⟩ ∧
    Stuff.update_json ⟨42, "persisted"⟩ setFooTo1 = .ok ⟨1, "persisted"⟩ ∧
    (scenarioCtx2.write_with .stuffTy "stuff" (runUpdateJson setFooTo1)).1 = .ok () ∧
    scenarioCtx3.read .stuffTy "stuff" = some ⟨1, "persisted"⟩ :=
  ⟨rfl, rfl, rfl, rfl, rfl, rfl⟩

/-- Claim C6: `update_json` with the identity transform is the identity —
converting a `Stuff` value to its JSON representation and back yields the
same value (and no unwrap panics). -/
theorem update_json_identity (s : Stuff) : s.update_json id = .ok s := rfl

/-- Claim C7: `update_json` with the transform setting `foo` to 1 yields a
value whose `foo` is 1 and whose `bar` is unchanged; the second conjunct
shows the transform's own deserialization (its `unwrap`) succeeds on the
value `update_json` feeds it. -/
theorem update_json_set_foo (s : Stuff) :
    s.update_json setFooTo1 = .ok { foo := 1, bar := s.bar } ∧
    Stuff.fromValue s.toJson = .ok s :=
  ⟨rfl, rfl⟩

/-- Claim C8: `read_json` is total and panic-free on every `Stuff` value:
serialization always succeeds, so the unwrap's failure branch is
unreachable and the result is always `some`. -/
theorem read_json_total (s : Stuff) : s.read_json = some s.toJson := rfl

/-- Claim C9: when the transformed JSON value cannot be deserialized back
into a `Stuff`, `update_json` propagates the unwrap panic (embedded as
`Except.error`) and never returns a normally-updated value. -/
theorem update_json_fails_hard (s : Stuff) (callback : Json → Json) (e : String)
    (h : Stuff.fromValue (callback s.toJson) = .error e) :
    s.update_json callback = .error e ∧
    ∀ r : Stuff, s.update_json callback ≠ .ok r := by
  have hu : s.update_json callback = .error e := by
    simp only [Stuff.update_json, Stuff.toValue, h]
  exact ⟨hu, fun r hr => by rw [hu] at hr; exact Except.noConfusion hr⟩

/-- Witness for C9: a transform that replaces the JSON value with `null`
makes `update_json` fail with the deserialization error. -/
theorem update_json_fails_hard_witness :
    Stuff.update_json ⟨0, "x"⟩ (fun _ => Json.null)
      = .error "invalid type: expected struct Stuff" :=
  (update_json_fails_hard ⟨0, "x"⟩ (fun _ => Json.null)
    "invalid type: expected struct Stuff" rfl).1

/-- Claim C10: error returns of `write_with` are atomic — when the result is
an error the registry is unchanged and the outcome does not depend on the
mutator (so the mutator was never invoked) — and a successful `write_with`
on key `k` leaves every entry at any other key unchanged. -/
theorem write_with_atomic (ctx : Context) (t : RTy) (k k' : String)
    (f g : t.interp → t.interp) :
    (∀ e, (ctx.write_with t k f).1 = .error e →
      (ctx.write_with t k f).2 = ctx ∧
      ctx.write_with t k f = ctx.write_with t k g) ∧
    ((ctx.write_with t k f).1 = .ok () → k' ≠ k →
      lookupEntry k' ((ctx.write_with t k f).2).everything
        = lookupEntry k' ctx.everything) := by
  cases hv : lookupEntry k ctx.everything with
  | none =>
    refine ⟨fun e _ => ⟨?_, ?_⟩, fun hok _ => ?_⟩
    · simp [Context.write_with, hv]
    · simp [Context.write_with, hv]
    · simp [Context.write_with, hv] at hok
  | some v =>
    cases hd : v.downcast t with
    | none =>
      refine ⟨fun e _ => ⟨?_, ?_⟩, fun hok _ => ?_⟩
      · simp [Context.write_with, hv, hd]
      · simp [Context.write_with, hv, hd]
      · simp [Context.write_with, hv, hd] at hok
    | some x =>
      refine ⟨fun e he => ?_, fun _ hne => ?_⟩
      · simp [Context.write_with, hv, hd] at he
      · simp only [Context.write_with, hv, hd]
        exact lookup_updateEntry_ne k k' _ ctx.everything hne

/-- Witness for C10: on `ctxOne`, a `write_with` at a missing key errors and
leaves the registry unchanged, and a successful `write_with` at "stuff"
leaves the (absent) entry at another key unchanged. -/
theorem write_with_atomic_witness :
    (ctxOne.write_with .stuffTy "absent" id).2 = ctxOne ∧
    lookupEntry "other" ((ctxOne.write_with .stuffTy "stuff" id).2).everything
      = lookupEntry "other" ctxOne.everything :=
  ⟨((write_with_atomic ctxOne .stuffTy "absent" "other" id id).1
      ("there is no contents with key " ++ "absent") rfl).1,
   (write_with_atomic ctxOne .stuffTy "stuff" "other" id id).2 rfl
     (by decide)⟩
